import Mathlib

/-!
Verification development for the preql-studio backend (`backend/main.py`).

The file embeds the connection/execution core of the backend as executable
Lean definitions and proves the spec's claims about it:

* the connection registry (`CONNECTIONS`, modelled as an association list),
* connection creation (`create_connection`, with the credential / dialect
  branching made explicit and all external effects supplied as parameters),
* the declarative query pipeline (`run_query`: normalize, parse, generate,
  clamp the row limit, compile, execute, shape), and
* the raw passthrough path (`run_raw_query`).

External collaborators (the preql compiler, SQLAlchemy engines, Google
credential discovery) are modelled as function-valued parameters: the
embedding fixes only how the backend invokes them and consumes their output,
exactly as the source does.  Python exceptions are modelled as `Except`
errors; a raised `HTTPException(code, detail)` is an `HttpErr`.  Python
`datetime` timestamps are wall-clock effects and are passed in as an
`elapsed` parameter.
-/

namespace PreqlStudio

/-- Purpose enum consumed from `preql.core.enums` (subset used by the backend). -/
inductive Purpose where
  | KEY
  | PROPERTY
  | METRIC
  | CONSTANT
deriving DecidableEq

/-- DataType enum consumed from `preql.core.enums` (subset used by the backend). -/
inductive DataType where
  | STRING
  | INTEGER
  | FLOAT
  | BOOL
  | DATE
  | TIMESTAMP
  | UNKNOWN
deriving DecidableEq

/-- Dialects enum consumed from `preql` (subset; the backend supports only
BIGQUERY and DUCK_DB and rejects every other tag). -/
inductive Dialects where
  | BIGQUERY
  | DUCK_DB
  | SQL_SERVER
  | PRESTO
deriving DecidableEq

/-- `DEFAULT_NAMESPACE` constant consumed from `preql.constants`. -/
def DEFAULT_NAMESPACE : String := "local"

/-- `STATEMENT_LIMIT = 100` (main.py line 46). -/
def STATEMENT_LIMIT : Nat := 100

/-- A JSON-serializable SQL cell value, as produced by the driver rows. -/
inductive Value where
  | int (n : Int)
  | str (s : String)
  | bool (b : Bool)
  | null
deriving DecidableEq

/-- A driver row: ordered `(column name, value)` pairs, as yielded by
`row.items()`.  Converting to a Python dict keeps the LAST occurrence of a
duplicated key (later insertions override earlier ones); `rowLookup` below
mirrors that. -/
abbrev Row := List (String × Value)

/-- Python-dict field access on a row built by inserting the pairs in order:
the value of the last pair with the requested key wins, mirroring
`dict(...)` construction and `{**a, **b}` merging. -/
def rowLookup (row : Row) (k : String) : Option Value :=
  row.foldl (fun acc p => if p.1 == k then some p.2 else acc) none

/-- The materialized outcome of `engine.execute(sql)`: the driver-reported
header list (`rs.keys()`) and the fetched rows (`rs.fetchall()`). -/
structure ResultSet where
  keys : List String
  rows : List Row
deriving DecidableEq

/-- A raised `HTTPException(status_code, detail)` (or an unhandled Python
exception, which FastAPI surfaces as a 500-class response). -/
structure HttpErr where
  code : Nat
  detail : String
deriving DecidableEq

/-- `QueryOutColumn` response model (main.py lines 177-180). -/
structure QueryOutColumn where
  name : String
  datatype : DataType
  purpose : Purpose
deriving DecidableEq

/-- `QueryOut` response model (main.py lines 183-192).  The wall-clock
`created_at` / `refreshed_at` defaults are not modelled; `duration` is the
elapsed-milliseconds value computed from wall-clock time and enters the
embedding as a parameter. -/
structure QueryOut where
  connection : String
  query : String
  generated_sql : String
  headers : List String
  results : List Row
  duration : Int
  columns : List (String × QueryOutColumn)
deriving DecidableEq

/-- An output column of a compiled statement plan (the `col` objects of
`statement.output_columns`): concept name, namespace, dotted address, and
type metadata. -/
structure OutputColumn where
  name : String
  namespace_ : String
  address : String
  purpose : Purpose
  datatype : DataType
deriving DecidableEq

/-- A compiled statement plan produced by the external compiler: a mutable
row-limit (`Optional[int]`; limits parsed from the grammar are non-negative,
so `Option Nat`), output column metadata, and opaque internal state (`body`)
from which the dialect SQL is rendered. -/
structure Statement where
  limit : Option Nat
  output_columns : List OutputColumn
  body : String
deriving DecidableEq

/-- The schema environment: the ordered `(alias namespace, source text)`
pairs that have been parsed into it.  `Environment()` is `[]`;
`deepcopy` is value semantics here. -/
abbrev Environment := List (Option String × String)

/-- Opaque carrier for the external compiler's parse output (the `parsed`
component of `parse_text`). -/
abbrev ParseTree := String

/-- A driver handle: `engine.execute` as a function from SQL text to either
a raised exception message or a materialized result set. -/
abbrev SqlEngine := String → Except String ResultSet

/-- The slice of the external compiler the backend calls through
`executor.generator`. -/
structure Generator where
  generate_queries : Environment → ParseTree → Except String (List Statement)
  compile_statement : Statement → Except String String

/-- `Executor`: dialect tag, driver handle, schema environment, generator. -/
structure Executor where
  dialect : Dialects
  engine : SqlEngine
  environment : Environment
  generator : Generator

/-- The `CONNECTIONS` registry: a mapping from connection name to executor,
modelled as an association list with unique keys. -/
abbrev Registry := List (String × Executor)

/-- Python dict lookup `d.get(k)` on an association list (first match; keys
are unique in a dict). -/
def alistGet {α : Type} (l : List (String × α)) (k : String) : Option α :=
  (l.find? (fun p => p.1 == k)).map (fun p => p.2)

/-- `CONNECTIONS.get(name)`. -/
def regGet (r : Registry) (k : String) : Option Executor :=
  alistGet r k

/-- `CONNECTIONS[name] = executor`: replace the entry if the key is present,
otherwise append it. -/
def regSet (r : Registry) (k : String) (v : Executor) : Registry :=
  if r.any (fun p => p.1 == k) then
    r.map (fun p => if p.1 == k then (k, v) else p)
  else
    r ++ [(k, v)]

/-- Python truthiness of an `Optional[str]`: `None` and `""` are falsy. -/
def optStrTruthy : Option String → Bool
  | none => false
  | some s => s != ""

/-- Drop leading characters satisfying `p` (helper for `pyStrip`). -/
def dropWhileList (p : Char → Bool) : List Char → List Char
  | [] => []
  | c :: rest => if p c then dropWhileList p rest else c :: rest

/-- Python `str.strip()`: remove whitespace from both ends. -/
def pyStrip (s : String) : String :=
  ⟨(dropWhileList Char.isWhitespace
      ((dropWhileList Char.isWhitespace s.data).reverse)).reverse⟩

/-- Replace every `.` by `_` in a character list (helper for `pyReplaceDot`). -/
def replaceDotChars : List Char → List Char
  | [] => []
  | c :: rest => (if c == '.' then '_' else c) :: replaceDotChars rest

/-- Python `s.replace(".", "_")`: the pattern is a single character, so the
replacement is a per-character map. -/
def pyReplaceDot (s : String) : String :=
  ⟨replaceDotChars s.data⟩

/-- `safe_format_query` (main.py lines 195-199): strip, then append `;` if
the last character is not already `;`.  On an empty stripped string the
subscript `input[-1]` raises `IndexError`, modelled as the error case. -/
def safe_format_query (input : String) : Except String String :=
  let s := pyStrip input
  match s.data.getLast? with
  | none => .error "string index out of range"
  | some c => if c == ';' then .ok s else .ok (s ++ ";")

/-- The per-statement limit clamp in `run_query` (main.py lines 391-395):
`min(int(statement.limit), STATEMENT_LIMIT) if statement.limit else
STATEMENT_LIMIT`.  The guard is Python truthiness, so both an unset limit
and a limit of `0` take the `else` branch. -/
def clampLimit (limit : Option Nat) : Nat :=
  match limit with
  | some l => if l != 0 then min l STATEMENT_LIMIT else STATEMENT_LIMIT
  | none => STATEMENT_LIMIT

/-- The in-place `statement.limit = ...` assignment: the statement that is
subsequently compiled and executed carries the clamped limit. -/
def clampStatement (st : Statement) : Statement :=
  { st with limit := some (clampLimit st.limit) }

/-- The `outputs` list built in `run_query` (main.py lines 398-410): one
`(col.name, QueryOutColumn)` pair per output column, with the display name
given by the namespace rule. -/
def colOutputs (st : Statement) : List (String × QueryOutColumn) :=
  st.output_columns.map (fun col =>
    (col.name,
      { name := if col.namespace_ == DEFAULT_NAMESPACE then
                  pyReplaceDot col.name
                else
                  pyReplaceDot col.address,
        datatype := col.datatype,
        purpose := col.purpose }))

/-- Row shaping `[{"_index": idx, **dict(row.items())} for idx, row in
enumerate(rs.fetchall())]`, with the running index made explicit. -/
def shapeRowsAux (idx : Nat) : List Row → List Row
  | [] => []
  | r :: rest => (("_index", Value.int idx) :: r) :: shapeRowsAux (idx + 1) rest

/-- Row shaping starting at index 0 (Python `enumerate`). -/
def shapeRows (rows : List Row) : List Row :=
  shapeRowsAux 0 rows

/-- Accumulator of the statement loop in `run_query`: the current `rs`,
`compiled_sql`, and `outputs` holders, initialized to `(None, "", [])`. -/
abbrev StmtAcc := Option ResultSet × String × List (String × QueryOutColumn)

/-- The `for statement in sql` loop of `run_query` (main.py lines 389-410):
clamp the limit, compile the statement, execute it, rebuild the outputs;
each iteration overwrites the holders, and any exception aborts the loop. -/
def runStatements (gen : Generator) (engine : SqlEngine) :
    List Statement → StmtAcc → Except String StmtAcc
  | [], acc => .ok acc
  | st :: rest, _ =>
    let stc := clampStatement st
    match gen.compile_statement stc with
    | .error e => .error e
    | .ok csql =>
      match engine csql with
      | .error e => .error e
      | .ok rs => runStatements gen engine rest (some rs, csql, colOutputs stc)

/-- The compile stage of `run_query` (main.py lines 379-381): normalize the
text, `parse_text` it against the connection's environment, and
`generate_queries`; any failure is a compile failure. -/
def query_to_statements (parse_text : String → Environment → Except String ParseTree)
    (ex : Executor) (text : String) : Except String (List Statement) := do
  let fq ← safe_format_query text
  let parsed ← parse_text fq ex.environment
  ex.generator.generate_queries ex.environment parsed

/-- Result shaping after the statement loop (main.py lines 414-434): if no
statement produced a result set, headers and rows are empty; otherwise they
come from the last executed statement's result set. -/
def finalize_query_output (query_connection query_text : String) (elapsed : Int)
    (acc : StmtAcc) : QueryOut :=
  match acc with
  | (rs, compiled_sql, outputs) =>
    match rs with
    | none =>
      { connection := query_connection, query := query_text,
        generated_sql := compiled_sql, headers := [], results := [],
        duration := elapsed, columns := outputs }
    | some r =>
      { connection := query_connection, query := query_text,
        generated_sql := compiled_sql, headers := r.keys,
        results := shapeRows r.rows, duration := elapsed, columns := outputs }

/-- `QueryInSchema` request model (main.py lines 171-173). -/
structure QueryInSchema where
  connection : String
  query : String
deriving DecidableEq

/-- The `/query` endpoint `run_query` (main.py lines 366-434).  Missing
connection raises 403; compile-stage failures raise 422 with a
"Parsing error: " prefix; loop failures raise 500. -/
def run_query (parse_text : String → Environment → Except String ParseTree)
    (conns : Registry) (query : QueryInSchema) (elapsed : Int) :
    Except HttpErr QueryOut :=
  match regGet conns query.connection with
  | none =>
    .error ⟨403, "Not a valid live connection. Refresh connection, then retry."⟩
  | some executor =>
    match query_to_statements parse_text executor query.query with
    | .error e => .error ⟨422, "Parsing error: " ++ e⟩
    | .ok sql =>
      match runStatements executor.generator executor.engine sql (none, "", []) with
      | .error e => .error ⟨500, e⟩
      | .ok acc => .ok (finalize_query_output query.connection query.query elapsed acc)

/-- The `/raw_query` endpoint `run_raw_query` (main.py lines 321-363).
Missing connection raises 401; the SQL string is executed verbatim; column
metadata is synthesized as `Purpose.KEY` / `DataType.STRING` for every
driver-reported header.  (The `if not rs` branch is unreachable: a
SQLAlchemy cursor result is always truthy, so headers always come from
`rs.keys()`.) -/
def run_raw_query (conns : Registry) (query : QueryInSchema) (elapsed : Int) :
    Except HttpErr QueryOut :=
  match regGet conns query.connection with
  | none => .error ⟨401, "Not a valid connection"⟩
  | some executor =>
    match executor.engine query.query with
    | .error e => .error ⟨500, e⟩
    | .ok rs =>
      .ok { connection := query.connection, query := query.query,
            generated_sql := query.query, headers := rs.keys,
            results := shapeRows rs.rows, duration := elapsed,
            columns := rs.keys.map (fun col =>
              (col, { name := col, datatype := DataType.STRING,
                      purpose := Purpose.KEY })) }

/-- `ModelSourceInSchema` request model (main.py lines 143-145): an alias
namespace and a declarative source text. -/
structure ModelSourceInSchema where
  alias_ : String
  contents : String
deriving DecidableEq

/-- `ModelInSchema` request model (main.py lines 148-150). -/
structure ModelInSchema where
  name : String
  sources : List ModelSourceInSchema
deriving DecidableEq

/-- `ConnectionInSchema` request model (main.py lines 153-158).  `extra` is a
string-valued JSON object (only the `user_or_service_auth_json` and
`project` keys are read). -/
structure ConnectionInSchema where
  name : String
  dialect : Dialects
  extra : Option (List (String × String))
  model : Option String
  full_model : Option ModelInSchema
deriving DecidableEq

/-- The external `Environment.parse(contents, namespace=...)` of the preql
compiler: threads the environment and may raise. -/
structure ParseCtx where
  env_parse : Environment → String → Option String → Except String Environment

/-- `parse_env_from_full_model` (main.py lines 202-209): parse each source
into one shared environment, under its alias namespace when the alias is
truthy; the first parse failure aborts the whole construction. -/
def parse_env_from_full_model (ctx : ParseCtx) (input : ModelInSchema) :
    Except String Environment :=
  input.sources.foldlM
    (fun env source =>
      if source.alias_ != "" then ctx.env_parse env source.contents (some source.alias_)
      else ctx.env_parse env source.contents none)
    ([] : Environment)

/-- External credential discovery for the BigQuery branch of
`create_connection` (main.py lines 274-294), reduced to the project id each
source would yield: inline auth JSON (may raise, like `json.loads` /
`load_credentials_from_dict`), the mounted secret file, the
`GOOGLE_APPLICATION_CREDENTIALS` file, and ambient `default()` discovery
(may raise, and may yield no project). -/
structure CredCtx where
  parse_auth_json : String → Except String (Option String)
  secret_file_project : Option String
  env_var_project : Option String
  default_project : Except String (Option String)

/-- External driver/generator construction (`create_engine`,
`bigquery.Client`, and the generator the `Executor` derives from its
dialect). -/
structure DriverFactory where
  bigquery_engine : String → SqlEngine
  duckdb_engine : SqlEngine
  generator_for : Dialects → Generator

/-- The `connection.extra and connection.extra.get("user_or_service_auth_json")`
guard (main.py line 274): requires a truthy extra dict and a truthy value. -/
def inline_auth_requested (extra : Option (List (String × String))) : Option String :=
  match extra with
  | none => none
  | some l =>
    if l != [] then
      match alistGet l "user_or_service_auth_json" with
      | some j => if j != "" then some j else none
      | none => none
    else none

/-- The `elif` chain of credential sources (main.py lines 281-294): secret
file, then credentials-file environment variable, then ambient default
discovery (whose failure is an unhandled exception, surfaced as a 500-class
response). -/
def credential_chain (cctx : CredCtx) : Except HttpErr (Option String) :=
  match cctx.secret_file_project with
  | some p => .ok (some p)
  | none =>
    match cctx.env_var_project with
    | some p => .ok (some p)
    | none =>
      match cctx.default_project with
      | .ok p => .ok p
      | .error e => .error ⟨500, e⟩

/-- Project resolution for the BigQuery branch: inline auth JSON if
requested (a failure there is an unhandled exception, 500-class), otherwise
the credential chain. -/
def resolve_bigquery_project (cctx : CredCtx)
    (extra : Option (List (String × String))) : Except HttpErr (Option String) :=
  match inline_auth_requested extra with
  | some j =>
    match cctx.parse_auth_json j with
    | .ok p => .ok p
    | .error e => .error ⟨500, e⟩
  | none => credential_chain cctx

/-- `if connection.extra: project = connection.extra.get("project", project)`
(main.py lines 295-296): an explicit project in a truthy extra dict
overrides the resolved one. -/
def apply_project_override (extra : Option (List (String × String)))
    (project : Option String) : Option String :=
  match extra with
  | none => project
  | some l =>
    if l != [] then
      match alistGet l "project" with
      | some v => some v
      | none => project
    else project

/-- The dialect branch of `create_connection` (main.py lines 273-317):
BigQuery resolves credentials and requires a truthy project (else 400);
DuckDB builds an in-memory engine; any other dialect is rejected with 400. -/
def buildExecutor (cctx : CredCtx) (fac : DriverFactory)
    (connection : ConnectionInSchema) (environment : Environment) :
    Except HttpErr Executor :=
  if connection.dialect == Dialects.BIGQUERY then
    match resolve_bigquery_project cctx connection.extra with
    | .error e => .error e
    | .ok project0 =>
      let project := apply_project_override connection.extra project0
      if optStrTruthy project then
        .ok { dialect := connection.dialect,
              engine := fac.bigquery_engine (project.getD ""),
              environment := environment,
              generator := fac.generator_for connection.dialect }
      else
        .error ⟨400, "BigQuery dialect requires a project to be specified in the extra field"⟩
  else if connection.dialect == Dialects.DUCK_DB then
    .ok { dialect := connection.dialect,
          engine := fac.duckdb_engine,
          environment := environment,
          generator := fac.generator_for connection.dialect }
  else
    .error ⟨400, "this dialect type is not supported currently"⟩

/-- Environment construction in `create_connection` (main.py lines 261-272):
a full custom model is parsed (failure raised as HTTP 500, main.py line
265); otherwise a truthy named model is deep-copied from the template
inventory, with a `KeyError` silently replaced by an empty environment;
otherwise the environment is empty. -/
def build_environment (pctx : ParseCtx) (pub : List (String × Environment))
    (connection : ConnectionInSchema) : Except HttpErr Environment :=
  match connection.full_model with
  | some fm =>
    match parse_env_from_full_model pctx fm with
    | .ok env => .ok env
    | .error e => .error ⟨500, e⟩
  | none =>
    if optStrTruthy connection.model then
      match alistGet pub (connection.model.getD "") with
      | some env => .ok env
      | none => .ok []
    else .ok []

/-- The `/connection` endpoint `create_connection` (main.py lines 259-318)
in state-passing form over the `CONNECTIONS` registry: build the
environment, build the executor, and only then — as the function's final
action — store the executor under the requested name.  Every raised
exception leaves the registry untouched, because the single registry
assignment is the last statement of the Python function. -/
def create_connection (pctx : ParseCtx) (cctx : CredCtx) (fac : DriverFactory)
    (pub : List (String × Environment)) (connection : ConnectionInSchema)
    (conns : Registry) : Registry × Option HttpErr :=
  match build_environment pctx pub connection with
  | .error e => (conns, some e)
  | .ok environment =>
    match buildExecutor cctx fac connection environment with
    | .error e => (conns, some e)
    | .ok executor => (regSet conns connection.name executor, none)

/-! Concrete fixtures: a small deterministic compiler and driver, used to
evaluate the endpoints on closed inputs. -/

/-- A parse function that succeeds and passes the normalized text through. -/
def pt0 : String → Environment → Except String ParseTree := fun s _ => .ok s

/-- Concept `bar` living in the non-default namespace `foo`. -/
def col_bar : OutputColumn :=
  { name := "bar", namespace_ := "foo", address := "foo.bar",
    purpose := Purpose.KEY, datatype := DataType.INTEGER }

/-- Concept `baz` living in the default namespace. -/
def col_baz : OutputColumn :=
  { name := "baz", namespace_ := "local", address := "local.baz",
    purpose := Purpose.PROPERTY, datatype := DataType.STRING }

/-- First compiled statement: limit 150, no output columns. -/
def st1 : Statement := { limit := some 150, output_columns := [], body := "SQL1" }

/-- Second compiled statement: no limit, two output columns. -/
def st2 : Statement :=
  { limit := none, output_columns := [col_bar, col_baz], body := "SQL2" }

/-- A generator that always yields the two-statement sequence and renders
each statement as its body. -/
def gen0 : Generator :=
  { generate_queries := fun _ _ => .ok [st1, st2],
    compile_statement := fun st => .ok st.body }

/-- A driver that answers every query with one row echoing the SQL text. -/
def eng0 : SqlEngine :=
  fun sql => .ok { keys := ["col"], rows := [[("col", Value.str sql)]] }

/-- A live DuckDB-style executor over the fixture compiler and driver. -/
def ex0 : Executor :=
  { dialect := Dialects.DUCK_DB, engine := eng0, environment := [],
    generator := gen0 }

/-- A registry with the single connection `c`. -/
def conns0 : Registry := [("c", ex0)]

/-- A query request against connection `c`. -/
def q0 : QueryInSchema := { connection := "c", query := "select 1" }

/-- The response `run_query pt0 conns0 q0 0` evaluates to: everything comes
from the second (last) statement. -/
def out0 : QueryOut :=
  { connection := "c", query := "select 1", generated_sql := "SQL2",
    headers := ["col"],
    results := [[("_index", Value.int 0), ("col", Value.str "SQL2")]],
    duration := 0,
    columns := [("bar", { name := "foo_bar", datatype := DataType.INTEGER,
                          purpose := Purpose.KEY }),
                ("baz", { name := "baz", datatype := DataType.STRING,
                          purpose := Purpose.PROPERTY })] }

/-- An executor whose driver reports a column literally named `_index`. -/
def exIdx : Executor :=
  { dialect := Dialects.DUCK_DB,
    engine := fun _ => .ok { keys := ["_index"],
                             rows := [[("_index", Value.int 5)]] },
    environment := [], generator := gen0 }

/-- Registry holding the `_index`-reporting connection. -/
def connsIdx : Registry := [("idx", exIdx)]

/-- A raw query selecting a column aliased `_index`. -/
def qIdx : QueryInSchema := { connection := "idx", query := "SELECT 5 AS _index" }

/-- An environment parser that always succeeds, recording each source. -/
def pctx0 : ParseCtx :=
  { env_parse := fun env contents ns => .ok (env ++ [(ns, contents)]) }

/-- An environment parser that always raises. -/
def pctxFail : ParseCtx := { env_parse := fun _ _ _ => .error "bad model" }

/-- A credential context with no usable source. -/
def cctx0 : CredCtx :=
  { parse_auth_json := fun _ => .ok none, secret_file_project := none,
    env_var_project := none, default_project := .ok none }

/-- A driver factory built on the fixture engine and generator. -/
def fac0 : DriverFactory :=
  { bigquery_engine := fun _ => eng0, duckdb_engine := eng0,
    generator_for := fun _ => gen0 }

/-- A one-source full custom model. -/
def fm0 : ModelInSchema :=
  { name := "m", sources := [{ alias_ := "", contents := "bad source" }] }

/-- A connection request supplying the full custom model `fm0`. -/
def reqFM : ConnectionInSchema :=
  { name := "x", dialect := Dialects.DUCK_DB, extra := none, model := none,
    full_model := some fm0 }

/-- A template inventory holding the single model `known`. -/
def pub0 : List (String × Environment) := [("known", [(none, "known source")])]

/-- A connection request naming a model absent from the inventory. -/
def reqModel : ConnectionInSchema :=
  { name := "m1", dialect := Dialects.DUCK_DB, extra := none,
    model := some "mystery", full_model := none }

/-- A plain DuckDB connection request with no model. -/
def reqDuck : ConnectionInSchema :=
  { name := "t1", dialect := Dialects.DUCK_DB, extra := none, model := none,
    full_model := none }

/-! Helper lemmas about the registry, row shaping, and the statement loop. -/

theorem runStatements_nil (gen : Generator) (eng : SqlEngine) (acc : StmtAcc) :
    runStatements gen eng [] acc = .ok acc := rfl

theorem runStatements_cons (gen : Generator) (eng : SqlEngine) (st : Statement)
    (rest : List Statement) (acc : StmtAcc) :
    runStatements gen eng (st :: rest) acc =
      match gen.compile_statement (clampStatement st) with
      | .error e => .error e
      | .ok csql =>
        match eng csql with
        | .error e => .error e
        | .ok rs =>
          runStatements gen eng rest (some rs, csql, colOutputs (clampStatement st)) := rfl

theorem find_cons_true {α : Type} (q : α → Bool) (a : α) (l : List α)
    (h : q a = true) : List.find? q (a :: l) = some a :=
  @List.find?_cons_of_pos _ q a l h

theorem find_cons_false {α : Type} (q : α → Bool) (a : α) (l : List α)
    (h : q a = false) : List.find? q (a :: l) = List.find? q l :=
  @List.find?_cons_of_neg _ q a l (by simp [h])

theorem find_map_replace (k : String) (v : Executor) :
    ∀ r : Registry, r.any (fun p => p.1 == k) = true →
      (r.map (fun p => if p.1 == k then (k, v) else p)).find? (fun p => p.1 == k) =
        some (k, v) := by
  intro r
  induction r with
  | nil => intro h; simp at h
  | cons p rest ih =>
    intro h
    cases hp : (p.1 == k) with
    | true =>
      have hhead : (if p.1 == k then (k, v) else p) = (k, v) := by simp [hp]
      rw [List.map_cons, hhead]
      exact find_cons_true (fun p => p.1 == k) (k, v) _ (by simp)
    | false =>
      have hhead : (if p.1 == k then (k, v) else p) = p := by simp [hp]
      rw [List.map_cons, hhead, find_cons_false (fun p => p.1 == k) p _ hp]
      refine ih ?_
      rw [List.any_cons, hp] at h
      simpa using h

theorem find_append_single (k : String) (v : Executor) :
    ∀ r : Registry, r.any (fun p => p.1 == k) = false →
      (r ++ [(k, v)]).find? (fun p => p.1 == k) = some (k, v) := by
  intro r
  induction r with
  | nil =>
    intro _
    rw [List.nil_append]
    exact find_cons_true (fun p => p.1 == k) (k, v) _ (by simp)
  | cons p rest ih =>
    intro h
    rw [List.any_cons, Bool.or_eq_false_iff] at h
    rw [List.cons_append, find_cons_false (fun p => p.1 == k) p _ h.1]
    exact ih h.2

/-- After `CONNECTIONS[name] = ex`, looking up `name` yields `ex`. -/
theorem regGet_regSet_same (r : Registry) (k : String) (v : Executor) :
    regGet (regSet r k v) k = some v := by
  unfold regGet regSet alistGet
  cases h : r.any (fun p => p.1 == k) with
  | true => rw [if_pos rfl, find_map_replace k v r h]; rfl
  | false => rw [if_neg (by simp), find_append_single k v r h]; rfl

theorem find_map_replace_ne (k : String) (v : Executor) (k2 : String) (hne : k2 ≠ k) :
    ∀ r : Registry,
      (r.map (fun p => if p.1 == k then (k, v) else p)).find? (fun p => p.1 == k2) =
        r.find? (fun p => p.1 == k2) := by
  intro r
  induction r with
  | nil => simp
  | cons p rest ih =>
    cases hp : (p.1 == k) with
    | true =>
      have hp1 : p.1 = k := by simpa using hp
      have hhead : (if p.1 == k then (k, v) else p) = (k, v) := by simp [hp]
      have hk2 : (((k, v) : String × Executor).1 == k2) = false := by
        simp only [beq_eq_false_iff_ne]
        exact fun hc => hne hc.symm
      have hp2 : (p.1 == k2) = false := by
        simp only [beq_eq_false_iff_ne, hp1]
        exact fun hc => hne hc.symm
      rw [List.map_cons, hhead, find_cons_false (fun p => p.1 == k2) (k, v) _ hk2,
        find_cons_false (fun p => p.1 == k2) p _ hp2]
      exact ih
    | false =>
      have hhead : (if p.1 == k then (k, v) else p) = p := by simp [hp]
      rw [List.map_cons, hhead]
      cases hp2 : (p.1 == k2) with
      | true =>
        rw [find_cons_true (fun p => p.1 == k2) p _ hp2,
          find_cons_true (fun p => p.1 == k2) p _ hp2]
      | false =>
        rw [find_cons_false (fun p => p.1 == k2) p _ hp2,
          find_cons_false (fun p => p.1 == k2) p _ hp2]
        exact ih

theorem find_append_single_ne (k : String) (v : Executor) (k2 : String) (hne : k2 ≠ k) :
    ∀ r : Registry,
      (r ++ [(k, v)]).find? (fun p => p.1 == k2) = r.find? (fun p => p.1 == k2) := by
  intro r
  induction r with
  | nil =>
    rw [List.nil_append, find_cons_false (fun p => p.1 == k2) (k, v) _ ?_,
      List.find?_nil]
    simp only [beq_eq_false_iff_ne]
    exact fun hc => hne hc.symm
  | cons p rest ih =>
    rw [List.cons_append]
    cases hp2 : (p.1 == k2) with
    | true =>
      rw [find_cons_true (fun p => p.1 == k2) p _ hp2,
        find_cons_true (fun p => p.1 == k2) p _ hp2]
    | false =>
      rw [find_cons_false (fun p => p.1 == k2) p _ hp2,
        find_cons_false (fun p => p.1 == k2) p _ hp2]
      exact ih

/-- After `CONNECTIONS[name] = ex`, every other name resolves as before. -/
theorem regGet_regSet_other (r : Registry) (k : String) (v : Executor)
    (k2 : String) (hne : k2 ≠ k) :
    regGet (regSet r k v) k2 = regGet r k2 := by
  unfold regGet regSet alistGet
  cases h : r.any (fun p => p.1 == k) with
  | true => rw [if_pos rfl, find_map_replace_ne k v k2 hne r]
  | false => rw [if_neg (by simp), find_append_single_ne k v k2 hne r]

theorem foldl_override_nomatch (k : String) :
    ∀ (r : Row) (acc : Option Value),
      (∀ p ∈ r, (p.1 == k) = false) →
      r.foldl (fun acc p => if p.1 == k then some p.2 else acc) acc = acc := by
  intro r
  induction r with
  | nil => intro acc _; rfl
  | cons p rest ih =>
    intro acc h
    rw [List.foldl_cons]
    have hh : (if p.1 == k then some p.2 else acc) = acc := by
      simp [h p (List.mem_cons_self p rest)]
    rw [hh]
    exact ih acc (fun q hq => h q (List.mem_cons_of_mem p hq))

/-- A freshly prepended field is the dict value of its key provided the rest
of the row does not mention that key (a later insertion would override it). -/
theorem rowLookup_cons_self (k : String) (v : Value) (r : Row)
    (h : k ∉ r.map Prod.fst) :
    rowLookup ((k, v) :: r) k = some v := by
  unfold rowLookup
  rw [List.foldl_cons]
  have hh : (if ((k, v) : String × Value).1 == k then some ((k, v) : String × Value).2
      else (none : Option Value)) = some v := by simp
  rw [hh]
  apply foldl_override_nomatch
  intro p hp
  cases hpk : (p.1 == k) with
  | true =>
    have hp1 : p.1 = k := by simpa using hpk
    have hmem : k ∈ r.map Prod.fst := by
      rw [← hp1]
      exact List.mem_map_of_mem Prod.fst hp
    exact absurd hmem h
  | false => rfl

theorem shapeRowsAux_get? :
    ∀ (rows : List Row) (start i : Nat),
      (shapeRowsAux start rows)[i]? =
        (rows[i]?).map (fun r => ("_index", Value.int (start + i)) :: r) := by
  intro rows
  induction rows with
  | nil => intro start i; simp [shapeRowsAux]
  | cons r rest ih =>
    intro start i
    cases i with
    | zero => simp [shapeRowsAux]
    | succ i =>
      have hstep : shapeRowsAux start (r :: rest) =
          (("_index", Value.int start) :: r) :: shapeRowsAux (start + 1) rest := rfl
      rw [hstep, List.getElem?_cons_succ, List.getElem?_cons_succ, ih (start + 1) i]
      have harith : ((start + 1 : Nat) : Int) + (i : Int) =
          (start : Int) + ((i + 1 : Nat) : Int) := by push_cast; ring
      rw [harith]

/-- Shaping is `enumerate` from zero: the shaped row at position `i` is the
fetched row at position `i` with the synthetic index prepended. -/
theorem shapeRows_get? (rows : List Row) (i : Nat) :
    (shapeRows rows)[i]? = (rows[i]?).map (fun r => ("_index", Value.int i) :: r) := by
  have h := shapeRowsAux_get? rows 0 i
  simpa [shapeRows] using h

/-- The statement loop is sequential: running `l₁ ++ l₂` is running `l₁`
and then, from whatever holders it left, running `l₂`. -/
theorem runStatements_append (gen : Generator) (eng : SqlEngine) :
    ∀ (l₁ l₂ : List Statement) (acc : StmtAcc),
      runStatements gen eng (l₁ ++ l₂) acc =
        (runStatements gen eng l₁ acc).bind
          (fun a => runStatements gen eng l₂ a) := by
  intro l₁
  induction l₁ with
  | nil => intro l₂ acc; rfl
  | cons st rest ih =>
    intro l₂ acc
    rw [List.cons_append, runStatements_cons, runStatements_cons]
    split
    · rfl
    · split
      · rfl
      · exact ih l₂ _

/-- If the loop finishes, every statement's compilation and execution
succeeded (with the clamped limit in force). -/
theorem runStatements_ok_forall (gen : Generator) (eng : SqlEngine) :
    ∀ (sts : List Statement) (acc acc2 : StmtAcc),
      runStatements gen eng sts acc = .ok acc2 →
      ∀ s ∈ sts, ∃ c r, gen.compile_statement (clampStatement s) = .ok c ∧
        eng c = .ok r := by
  intro sts
  induction sts with
  | nil => intro acc acc2 _ s hs; simp at hs
  | cons st rest ih =>
    intro acc acc2 h s hs
    rw [runStatements_cons] at h
    split at h
    · exact absurd h (by simp)
    · rename_i csql hc
      split at h
      · exact absurd h (by simp)
      · rename_i rs he
        rcases List.mem_cons.mp hs with hs | hs
        · exact ⟨csql, rs, by rw [hs]; exact hc, he⟩
        · exact ih _ acc2 h s hs

/-- If the loop finishes on a list ending in `st`, the final holders are
exactly those written by `st`: its compiled SQL, its result set, and its
column metadata. -/
theorem runStatements_concat (gen : Generator) (eng : SqlEngine)
    (l : List Statement) (st : Statement) (acc acc2 : StmtAcc)
    (h : runStatements gen eng (l ++ [st]) acc = .ok acc2) :
    ∃ csql rs, gen.compile_statement (clampStatement st) = .ok csql ∧
      eng csql = .ok rs ∧ acc2 = (some rs, csql, colOutputs (clampStatement st)) := by
  rw [runStatements_append gen eng l [st] acc] at h
  cases hl : runStatements gen eng l acc with
  | error e => rw [hl] at h; exact absurd h (by simp [Except.bind])
  | ok a =>
    rw [hl] at h
    have h2 : runStatements gen eng [st] a = Except.ok acc2 := h
    rw [runStatements_cons] at h2
    split at h2
    · exact absurd h2 (by simp)
    · rename_i csql hc
      split at h2
      · exact absurd h2 (by simp)
      · rename_i rs he
        rw [runStatements_nil] at h2
        exact ⟨csql, rs, hc, he, by cases h2; rfl⟩

/-- Unfolding of `run_query` once the connection lookup has succeeded. -/
theorem run_query_eq_of (pt : String → Environment → Except String ParseTree)
    (conns : Registry) (q : QueryInSchema) (el : Int) (ex : Executor)
    (hget : regGet conns q.connection = some ex) :
    run_query pt conns q el =
      match query_to_statements pt ex q.query with
      | .error e => .error ⟨422, "Parsing error: " ++ e⟩
      | .ok sql =>
        match runStatements ex.generator ex.engine sql (none, "", []) with
        | .error e => .error ⟨500, e⟩
        | .ok acc => .ok (finalize_query_output q.connection q.query el acc) := by
  unfold run_query
  rw [hget]

/-- Unfolding of `run_query` once the compile stage has succeeded. -/
theorem run_query_eq_of_stmts (pt : String → Environment → Except String ParseTree)
    (conns : Registry) (q : QueryInSchema) (el : Int) (ex : Executor)
    (sts : List Statement)
    (hget : regGet conns q.connection = some ex)
    (hq : query_to_statements pt ex q.query = .ok sts) :
    run_query pt conns q el =
      match runStatements ex.generator ex.engine sts (none, "", []) with
      | .error e => .error ⟨500, e⟩
      | .ok acc => .ok (finalize_query_output q.connection q.query el acc) := by
  rw [run_query_eq_of pt conns q el ex hget, hq]

/-- C1 (amended).  The limit actually compiled and executed by the pipeline
is `min L 100` when the plan's limit `L` is set and truthy (nonzero), and
`100` when the limit is unset or set to `0`; limit `150` executes as `100`,
no limit executes as `100`, limit `10` executes as `10`; a truthy set limit
is never raised, the executed limit is always positive (in particular never
negative), and each loop iteration compiles and executes the statement with
the clamped limit in place.  (The original claim's unqualified "never raised
above its set value" fails at a set limit of `0`; see the counterexample.) -/
theorem statement_limit_clamped (v : Nat) (hv : v ≠ 0) :
    clampLimit (some v) = min v 100 ∧
    clampLimit none = 100 ∧
    clampLimit (some 0) = 100 ∧
    clampLimit (some 150) = 100 ∧
    clampLimit (some 10) = 10 ∧
    clampLimit (some v) ≤ v ∧
    (∀ l : Option Nat, 0 < clampLimit l) ∧
    (∀ st : Statement, (clampStatement st).limit = some (clampLimit st.limit)) ∧
    (∀ (gen : Generator) (eng : SqlEngine) (st : Statement)
        (rest : List Statement) (acc : StmtAcc),
      runStatements gen eng (st :: rest) acc =
        match gen.compile_statement (clampStatement st) with
        | .error e => .error e
        | .ok csql =>
          match eng csql with
          | .error e => .error e
          | .ok rs =>
            runStatements gen eng rest (some rs, csql, colOutputs (clampStatement st))) := by
  have h1 : clampLimit (some v) = min v 100 := by
    simp [clampLimit, STATEMENT_LIMIT, hv]
  refine ⟨h1, rfl, rfl, rfl, rfl, ?_, ?_, fun st => rfl, fun gen eng st rest acc =>
    runStatements_cons gen eng st rest acc⟩
  · rw [h1]; exact min_le_left v 100
  · intro l
    cases l with
    | none => decide
    | some m =>
      by_cases hm : m = 0
      · rw [hm]; decide
      · have hcl : clampLimit (some m) = min m 100 := by
          simp [clampLimit, STATEMENT_LIMIT, hm]
        rw [hcl]
        exact Nat.lt_min.mpr ⟨Nat.pos_of_ne_zero hm, by decide⟩

/-- C1 witness: the clamp evaluated at the concrete truthy limit 10. -/
theorem statement_limit_clamped_witness :
    clampLimit (some 10) = min 10 100 ∧
    clampLimit none = 100 ∧
    clampLimit (some 0) = 100 ∧
    clampLimit (some 150) = 100 ∧
    clampLimit (some 10) = 10 ∧
    clampLimit (some 10) ≤ 10 ∧
    (∀ l : Option Nat, 0 < clampLimit l) ∧
    (∀ st : Statement, (clampStatement st).limit = some (clampLimit st.limit)) ∧
    (∀ (gen : Generator) (eng : SqlEngine) (st : Statement)
        (rest : List Statement) (acc : StmtAcc),
      runStatements gen eng (st :: rest) acc =
        match gen.compile_statement (clampStatement st) with
        | .error e => .error e
        | .ok csql =>
          match eng csql with
          | .error e => .error e
          | .ok rs =>
            runStatements gen eng rest (some rs, csql, colOutputs (clampStatement st))) :=
  statement_limit_clamped 10 (by decide)

/-- C1 counterexample: a plan whose limit is SET to `0` executes with limit
`100` — the pipeline raises the limit above its set value, refuting the
original claim's "the limit is never raised above its set value". -/
theorem statement_limit_zero_raised :
    clampLimit (some 0) = 100 ∧ ¬ clampLimit (some 0) ≤ 0 := by decide

/-- C8.  A query or raw-query request naming an unregistered connection
fails immediately — before any compiler or driver involvement — with the
4xx-class (forbidden-style 403 resp. 401) errors the endpoints raise, and
no result rows are produced. -/
theorem missing_connection_rejected
    (pt : String → Environment → Except String ParseTree)
    (conns : Registry) (q : QueryInSchema) (el : Int)
    (h : regGet conns q.connection = none) :
    run_query pt conns q el =
      .error ⟨403, "Not a valid live connection. Refresh connection, then retry."⟩ ∧
    run_raw_query conns q el = .error ⟨401, "Not a valid connection"⟩ ∧
    400 ≤ 403 ∧ 403 < 500 ∧ 400 ≤ 401 ∧ 401 < 500 := by
  refine ⟨?_, ?_, by decide, by decide, by decide, by decide⟩
  · unfold run_query; rw [h]
  · unfold run_raw_query; rw [h]

/-- C7.  The raw path looks up the connection, passes the SQL text to the
driver verbatim (no limit clamp, no compile step), fails with a 500 when the
driver raises, and on success returns the driver's own headers and rows with
synthesized `KEY`/`STRING` metadata for every header; the outcome depends
only on the executor's engine — two executors with the same engine but any
environments and generators behave identically. -/
theorem run_raw_query_eq_of (conns : Registry) (q : QueryInSchema) (el : Int)
    (ex : Executor) (hget : regGet conns q.connection = some ex) :
    run_raw_query conns q el =
      match ex.engine q.query with
      | .error e => .error ⟨500, e⟩
      | .ok rs =>
        .ok { connection := q.connection, query := q.query,
              generated_sql := q.query, headers := rs.keys,
              results := shapeRows rs.rows, duration := el,
              columns := rs.keys.map (fun col =>
                (col, { name := col, datatype := DataType.STRING,
                        purpose := Purpose.KEY })) } := by
  unfold run_raw_query
  rw [hget]

theorem run_raw_query_verbatim (conns : Registry) (q : QueryInSchema) (el : Int)
    (ex : Executor) (hget : regGet conns q.connection = some ex) :
    (∀ e, ex.engine q.query = .error e →
      run_raw_query conns q el = .error ⟨500, e⟩) ∧
    (∀ rs, ex.engine q.query = .ok rs →
      run_raw_query conns q el = .ok
        { connection := q.connection, query := q.query, generated_sql := q.query,
          headers := rs.keys, results := shapeRows rs.rows, duration := el,
          columns := rs.keys.map (fun col =>
            (col, { name := col, datatype := DataType.STRING,
                    purpose := Purpose.KEY })) }) ∧
    (∀ (conns2 : Registry) (ex2 : Executor),
      regGet conns2 q.connection = some ex2 → ex2.engine = ex.engine →
      run_raw_query conns2 q el = run_raw_query conns q el) := by
  refine ⟨?_, ?_, ?_⟩
  · intro e he
    rw [run_raw_query_eq_of conns q el ex hget, he]
  · intro rs hrs
    rw [run_raw_query_eq_of conns q el ex hget, hrs]
  · intro conns2 ex2 hget2 heng
    rw [run_raw_query_eq_of conns q el ex hget,
      run_raw_query_eq_of conns2 q el ex2 hget2, heng]

/-- C3.  With a registered connection, `run_query` classifies failures in
two disjoint stages: any failure of the compile stage (normalization,
`parse_text`, `generate_queries`) is reported as 422 with a
"Parsing error: " prefix; any failure of the execution loop (statement
compilation to SQL, driver execution) is reported as 500; every error the
endpoint returns carries one of those two codes, and the codes differ. -/
theorem run_query_failure_classification
    (pt : String → Environment → Except String ParseTree)
    (conns : Registry) (q : QueryInSchema) (el : Int) (ex : Executor)
    (hget : regGet conns q.connection = some ex) :
    (∀ e, query_to_statements pt ex q.query = .error e →
      run_query pt conns q el = .error ⟨422, "Parsing error: " ++ e⟩) ∧
    (∀ sts e, query_to_statements pt ex q.query = .ok sts →
      runStatements ex.generator ex.engine sts (none, "", []) = .error e →
      run_query pt conns q el = .error ⟨500, e⟩) ∧
    (∀ err, run_query pt conns q el = .error err →
      err.code = 422 ∨ err.code = 500) ∧
    (422 : Nat) ≠ 500 := by
  refine ⟨?_, ?_, ?_, by decide⟩
  · intro e he
    rw [run_query_eq_of pt conns q el ex hget, he]
  · intro sts e hq hrun
    rw [run_query_eq_of_stmts pt conns q el ex sts hget hq, hrun]
  · intro err herr
    rw [run_query_eq_of pt conns q el ex hget] at herr
    split at herr
    · injection herr with h
      rw [← h]
      exact Or.inl rfl
    · split at herr
      · injection herr with h
        rw [← h]
        exact Or.inr rfl
      · exact Except.noConfusion herr

/-- C2.  When the declarative text compiles to a sequence ending in `st`
(with at least one earlier statement), a successful `run_query` response is
exactly the last statement's outcome: its compiled SQL, its driver headers
and shaped rows, its column metadata — nothing from earlier statements
survives; moreover every statement in the sequence was compiled and
executed, and the loop is the sequential composition of the prefix and the
final statement. -/
theorem run_query_last_statement_wins
    (pt : String → Environment → Except String ParseTree)
    (conns : Registry) (q : QueryInSchema) (el : Int) (ex : Executor)
    (sts l : List Statement) (st : Statement) (out : QueryOut)
    (hget : regGet conns q.connection = some ex)
    (hq : query_to_statements pt ex q.query = .ok sts)
    (hsts : sts = l ++ [st]) (hne : l ≠ [])
    (hok : run_query pt conns q el = .ok out) :
    ∃ csql rs,
      ex.generator.compile_statement (clampStatement st) = .ok csql ∧
      ex.engine csql = .ok rs ∧
      out.generated_sql = csql ∧
      out.headers = rs.keys ∧
      out.results = shapeRows rs.rows ∧
      out.columns = colOutputs (clampStatement st) ∧
      (∀ s ∈ sts, ∃ c r,
        ex.generator.compile_statement (clampStatement s) = .ok c ∧
        ex.engine c = .ok r) ∧
      (∀ acc : StmtAcc, runStatements ex.generator ex.engine sts acc =
        (runStatements ex.generator ex.engine l acc).bind
          (fun a => runStatements ex.generator ex.engine [st] a)) := by
  rw [run_query_eq_of_stmts pt conns q el ex sts hget hq] at hok
  split at hok
  · exact Except.noConfusion hok
  · rename_i acc hrun
    injection hok with hout
    subst hsts
    obtain ⟨csql, rs, hc, he, hacc⟩ :=
      runStatements_concat ex.generator ex.engine l st _ acc hrun
    subst hacc
    refine ⟨csql, rs, hc, he, by rw [← hout]; rfl, by rw [← hout]; rfl,
      by rw [← hout]; rfl, by rw [← hout]; rfl, ?_, ?_⟩
    · exact runStatements_ok_forall ex.generator ex.engine (l ++ [st]) _ _ hrun
    · intro acc0
      exact runStatements_append ex.generator ex.engine l [st] acc0

/-- C6.  The column metadata of a successful `run_query` response is the
last statement's output columns, each displayed under the namespace rule:
the bare concept name with `.` replaced by `_` when the namespace is the
default one, the full dotted address with `.` replaced by `_` otherwise. -/
theorem run_query_display_names
    (pt : String → Environment → Except String ParseTree)
    (conns : Registry) (q : QueryInSchema) (el : Int) (ex : Executor)
    (sts l : List Statement) (st : Statement) (out : QueryOut)
    (hget : regGet conns q.connection = some ex)
    (hq : query_to_statements pt ex q.query = .ok sts)
    (hsts : sts = l ++ [st])
    (hok : run_query pt conns q el = .ok out) :
    out.columns = st.output_columns.map (fun col =>
      (col.name,
        { name := if col.namespace_ == DEFAULT_NAMESPACE then
                    pyReplaceDot col.name
                  else
                    pyReplaceDot col.address,
          datatype := col.datatype,
          purpose := col.purpose })) := by
  rw [run_query_eq_of_stmts pt conns q el ex sts hget hq] at hok
  split at hok
  · exact Except.noConfusion hok
  · rename_i acc hrun
    injection hok with hout
    subst hsts
    obtain ⟨csql, rs, hc, he, hacc⟩ :=
      runStatements_concat ex.generator ex.engine l st _ acc hrun
    subst hacc
    rw [← hout]
    rfl

/-- C5 (amended).  Shaped result rows carry a synthetic `_index` field equal
to their zero-based position — provided the driver row itself reports no
column named `_index` (such a column is inserted after the synthetic index
and, by Python dict-merge semantics, overrides it; see the counterexample).
Both endpoints produce their `results` by this shaping of the fetched rows. -/
theorem results_index_field (rows : List Row) (r : Row) (i : Nat)
    (hi : rows[i]? = some r) (hno : "_index" ∉ r.map Prod.fst) :
    ((shapeRows rows)[i]?).map (fun row => rowLookup row "_index") =
      some (some (Value.int i)) ∧
    (∀ (conns : Registry) (q : QueryInSchema) (el : Int) (ex : Executor)
        (rs : ResultSet),
      regGet conns q.connection = some ex → ex.engine q.query = .ok rs →
      ∃ out, run_raw_query conns q el = .ok out ∧
        out.results = shapeRows rs.rows) ∧
    (∀ (pt : String → Environment → Except String ParseTree) (conns : Registry)
        (q : QueryInSchema) (el : Int) (out : QueryOut),
      run_query pt conns q el = .ok out →
      out.results = [] ∨ ∃ rs : ResultSet,
        out.headers = rs.keys ∧ out.results = shapeRows rs.rows) := by
  refine ⟨?_, ?_, ?_⟩
  · rw [shapeRows_get?, hi]
    simp only [Option.map_some']
    rw [rowLookup_cons_self _ _ _ hno]
  · intro conns q el ex rs hget hrs
    rw [run_raw_query_eq_of conns q el ex hget, hrs]
    exact ⟨_, rfl, rfl⟩
  · intro pt conns q el out hok
    unfold run_query at hok
    split at hok
    · exact Except.noConfusion hok
    · split at hok
      · exact Except.noConfusion hok
      · split at hok
        · exact Except.noConfusion hok
        · rename_i acc hrun
          injection hok with hout
          subst hout
          obtain ⟨rsO, csql, outs⟩ := acc
          cases rsO with
          | none => exact Or.inl rfl
          | some rr => exact Or.inr ⟨rr, rfl, rfl⟩

/-- Unfolding of `build_environment` when a full custom model is supplied. -/
theorem build_environment_full (pctx : ParseCtx) (pub : List (String × Environment))
    (req : ConnectionInSchema) (fm : ModelInSchema)
    (h : req.full_model = some fm) :
    build_environment pctx pub req =
      match parse_env_from_full_model pctx fm with
      | .ok env => .ok env
      | .error e => .error ⟨500, e⟩ := by
  unfold build_environment
  rw [h]

/-- Unfolding of `create_connection` when environment construction fails. -/
theorem create_connection_env_err (pctx : ParseCtx) (cctx : CredCtx)
    (fac : DriverFactory) (pub : List (String × Environment))
    (req : ConnectionInSchema) (conns : Registry) (e : HttpErr)
    (h : build_environment pctx pub req = .error e) :
    create_connection pctx cctx fac pub req conns = (conns, some e) := by
  unfold create_connection
  rw [h]

/-- Unfolding of `create_connection` when environment construction succeeds. -/
theorem create_connection_env_ok (pctx : ParseCtx) (cctx : CredCtx)
    (fac : DriverFactory) (pub : List (String × Environment))
    (req : ConnectionInSchema) (conns : Registry) (env : Environment)
    (h : build_environment pctx pub req = .ok env) :
    create_connection pctx cctx fac pub req conns =
      match buildExecutor cctx fac req env with
      | .error e => (conns, some e)
      | .ok executor => (regSet conns req.name executor, none) := by
  unfold create_connection
  rw [h]

/-- C4 (amended).  When a full custom model is supplied and parsing it
fails, the whole connection construction aborts — the registry is returned
untouched — and the failure is reported with HTTP status 500, i.e. as a
server-fault-class response, not as a 4xx client error.  (The original
claim's "4xx class, not 5xx" is refuted by the counterexample: main.py line
265 raises `HTTPException(status_code=500, ...)`.) -/
theorem create_connection_parse_failure_aborts (pctx : ParseCtx) (cctx : CredCtx)
    (fac : DriverFactory) (pub : List (String × Environment))
    (req : ConnectionInSchema) (conns : Registry) (fm : ModelInSchema) (e : String)
    (hfm : req.full_model = some fm)
    (herr : parse_env_from_full_model pctx fm = .error e) :
    create_connection pctx cctx fac pub req conns = (conns, some ⟨500, e⟩) ∧
    ¬ ((500 : Nat) < 500) ∧ (400 : Nat) ≤ 500 := by
  have henv : build_environment pctx pub req = .error ⟨500, e⟩ := by
    rw [build_environment_full pctx pub req fm hfm, herr]
  exact ⟨create_connection_env_err pctx cctx fac pub req conns _ henv,
    by decide, by decide⟩

/-- `buildExecutor` reads only the dialect and extra fields of the request. -/
theorem buildExecutor_congr (cctx : CredCtx) (fac : DriverFactory)
    (c1 c2 : ConnectionInSchema) (env : Environment)
    (hd : c1.dialect = c2.dialect) (he : c1.extra = c2.extra) :
    buildExecutor cctx fac c1 env = buildExecutor cctx fac c2 env := by
  unfold buildExecutor
  rw [hd, he]

/-- C9.  A named pre-built model absent from the template inventory is not
an error: the environment falls back to empty, and the request behaves
exactly as if no model had been supplied at all. -/
theorem unknown_model_empty_env (pctx : ParseCtx) (cctx : CredCtx)
    (fac : DriverFactory) (pub : List (String × Environment))
    (req : ConnectionInSchema) (conns : Registry) (m : String)
    (hfull : req.full_model = none) (hm : req.model = some m)
    (hunk : alistGet pub m = none) :
    build_environment pctx pub req = .ok ([] : Environment) ∧
    create_connection pctx cctx fac pub req conns =
      create_connection pctx cctx fac pub { req with model := none } conns := by
  have henv : build_environment pctx pub req = .ok [] := by
    unfold build_environment
    rw [hfull, hm]
    cases htr : optStrTruthy (some m) with
    | false => rfl
    | true =>
      have hunk2 : alistGet pub ((some m).getD "") = none := hunk
      rw [hunk2]
      rfl
  have henv2 : build_environment pctx pub { req with model := none } = .ok [] := by
    unfold build_environment
    rw [show ({ req with model := none } : ConnectionInSchema).full_model =
      req.full_model from rfl, hfull]
    rfl
  refine ⟨henv, ?_⟩
  rw [create_connection_env_ok pctx cctx fac pub req conns [] henv,
    create_connection_env_ok pctx cctx fac pub _ conns [] henv2,
    buildExecutor_congr cctx fac { req with model := none } req [] rfl rfl,
    show ({ req with model := none } : ConnectionInSchema).name = req.name from rfl]

/-- C10.  `create_connection` touches the registry only as its final step:
whenever it reports a failure of any kind the registry is exactly the one it
was given, and on success the new registry is a single whole-entry write —
the requested name now resolves to the new executor and every other name
resolves as before. -/
theorem create_connection_registry_atomic (pctx : ParseCtx) (cctx : CredCtx)
    (fac : DriverFactory) (pub : List (String × Environment))
    (req : ConnectionInSchema) (conns : Registry) :
    ((create_connection pctx cctx fac pub req conns).2.isSome →
      (create_connection pctx cctx fac pub req conns).1 = conns) ∧
    ((create_connection pctx cctx fac pub req conns).2 = none →
      ∃ ex, (create_connection pctx cctx fac pub req conns).1 =
          regSet conns req.name ex ∧
        regGet (regSet conns req.name ex) req.name = some ex ∧
        ∀ k, k ≠ req.name → regGet (regSet conns req.name ex) k = regGet conns k) := by
  cases henv : build_environment pctx pub req with
  | error e =>
    rw [create_connection_env_err pctx cctx fac pub req conns e henv]
    exact ⟨fun _ => rfl, fun h => Option.noConfusion h⟩
  | ok env =>
    rw [create_connection_env_ok pctx cctx fac pub req conns env henv]
    cases hbe : buildExecutor cctx fac req env with
    | error e =>
      exact ⟨fun _ => rfl, fun h => Option.noConfusion h⟩
    | ok ex =>
      refine ⟨fun h => absurd h (by simp), fun _ =>
        ⟨ex, rfl, regGet_regSet_same conns req.name ex,
          fun k hk => regGet_regSet_other conns req.name ex k hk⟩⟩

/-- C2 witness: a concrete two-statement query against the fixture
connection; the response `out0` is exactly the second statement's outcome. -/
theorem run_query_last_statement_wins_witness :
    ∃ csql rs,
      gen0.compile_statement (clampStatement st2) = .ok csql ∧
      eng0 csql = .ok rs ∧
      out0.generated_sql = csql ∧
      out0.headers = rs.keys ∧
      out0.results = shapeRows rs.rows ∧
      out0.columns = colOutputs (clampStatement st2) ∧
      (∀ s ∈ [st1, st2], ∃ c r,
        gen0.compile_statement (clampStatement s) = .ok c ∧ eng0 c = .ok r) ∧
      (∀ acc : StmtAcc, runStatements gen0 eng0 [st1, st2] acc =
        (runStatements gen0 eng0 [st1] acc).bind
          (fun a => runStatements gen0 eng0 [st2] a)) :=
  run_query_last_statement_wins pt0 conns0 q0 0 ex0 [st1, st2] [st1] st2 out0
    rfl rfl rfl (by simp) rfl

/-- C3 witness: the failure-classification contract instantiated at the
fixture connection. -/
theorem run_query_failure_classification_witness :
    (∀ e, query_to_statements pt0 ex0 q0.query = .error e →
      run_query pt0 conns0 q0 0 = .error ⟨422, "Parsing error: " ++ e⟩) ∧
    (∀ sts e, query_to_statements pt0 ex0 q0.query = .ok sts →
      runStatements ex0.generator ex0.engine sts (none, "", []) = .error e →
      run_query pt0 conns0 q0 0 = .error ⟨500, e⟩) ∧
    (∀ err, run_query pt0 conns0 q0 0 = .error err →
      err.code = 422 ∨ err.code = 500) ∧
    (422 : Nat) ≠ 500 :=
  run_query_failure_classification pt0 conns0 q0 0 ex0 rfl

/-- C4 witness: a concrete full-model request whose source fails to parse;
the registry is returned untouched and the error code is 500. -/
theorem create_connection_parse_failure_aborts_witness :
    create_connection pctxFail cctx0 fac0 [] reqFM [] =
      ([], some ⟨500, "bad model"⟩) ∧
    ¬ ((500 : Nat) < 500) ∧ (400 : Nat) ≤ 500 :=
  create_connection_parse_failure_aborts pctxFail cctx0 fac0 [] reqFM []
    fm0 "bad model" rfl rfl

/-- C4 counterexample: the parse failure of a full custom model is reported
with HTTP status 500 — a server-fault-class code, not the 4xx client-error
class the original claim asserts (a 4xx code `c` satisfies `c < 500`). -/
theorem create_connection_parse_failure_is_500 :
    (create_connection pctxFail cctx0 fac0 [] reqFM []).2.map HttpErr.code =
      some 500 ∧
    ¬ ((500 : Nat) < 500) := by
  exact ⟨rfl, by decide⟩

/-- C5 witness: the shaped row at position 0 of a one-row result carries
`_index = 0`, and both endpoints shape their results this way. -/
theorem results_index_field_witness :
    ((shapeRows [[("a", Value.int 7)]])[0]?).map
        (fun row => rowLookup row "_index") =
      some (some (Value.int 0)) ∧
    (∀ (conns : Registry) (q : QueryInSchema) (el : Int) (ex : Executor)
        (rs : ResultSet),
      regGet conns q.connection = some ex → ex.engine q.query = .ok rs →
      ∃ out, run_raw_query conns q el = .ok out ∧
        out.results = shapeRows rs.rows) ∧
    (∀ (pt : String → Environment → Except String ParseTree) (conns : Registry)
        (q : QueryInSchema) (el : Int) (out : QueryOut),
      run_query pt conns q el = .ok out →
      out.results = [] ∨ ∃ rs : ResultSet,
        out.headers = rs.keys ∧ out.results = shapeRows rs.rows) :=
  results_index_field [[("a", Value.int 7)]] [("a", Value.int 7)] 0 rfl (by decide)

/-- C5 counterexample: a raw query whose driver reports a column literally
named `_index` — the row at position 0 comes back with `_index = 5`, not the
zero-based position 0, refuting the unqualified original claim. -/
theorem results_index_field_overridden :
    (run_raw_query connsIdx qIdx 0).toOption.map
        (fun o => o.results.map (fun row => rowLookup row "_index")) =
      some [some (Value.int 5)] ∧
    some (Value.int 5) ≠ some (Value.int 0) := by
  exact ⟨rfl, by decide⟩

/-- C6 witness: on the fixture query, the columns of the response are the
second statement's output columns under the display rule; concretely,
`bar` in non-default namespace `foo` renders as `foo_bar` and `baz` in the
default namespace renders as `baz`. -/
theorem run_query_display_names_witness :
    out0.columns = st2.output_columns.map (fun col =>
      (col.name,
        { name := if col.namespace_ == DEFAULT_NAMESPACE then
                    pyReplaceDot col.name
                  else
                    pyReplaceDot col.address,
          datatype := col.datatype,
          purpose := col.purpose })) ∧
    st2.output_columns.map (fun col =>
      ((col.name,
        { name := if col.namespace_ == DEFAULT_NAMESPACE then
                    pyReplaceDot col.name
                  else
                    pyReplaceDot col.address,
          datatype := col.datatype,
          purpose := col.purpose }) : String × QueryOutColumn)) =
      ([("bar", { name := "foo_bar", datatype := DataType.INTEGER,
                  purpose := Purpose.KEY }),
        ("baz", { name := "baz", datatype := DataType.STRING,
                  purpose := Purpose.PROPERTY })] :
        List (String × QueryOutColumn)) :=
  ⟨run_query_display_names pt0 conns0 q0 0 ex0 [st1, st2] [st1] st2 out0
      rfl rfl rfl rfl,
    by decide⟩

/-- C7 witness: the raw-path contract instantiated at the fixture
connection. -/
theorem run_raw_query_verbatim_witness :
    (∀ e, ex0.engine q0.query = .error e →
      run_raw_query conns0 q0 0 = .error ⟨500, e⟩) ∧
    (∀ rs, ex0.engine q0.query = .ok rs →
      run_raw_query conns0 q0 0 = .ok
        { connection := q0.connection, query := q0.query,
          generated_sql := q0.query, headers := rs.keys,
          results := shapeRows rs.rows, duration := 0,
          columns := rs.keys.map (fun col =>
            (col, { name := col, datatype := DataType.STRING,
                    purpose := Purpose.KEY })) }) ∧
    (∀ (conns2 : Registry) (ex2 : Executor),
      regGet conns2 q0.connection = some ex2 → ex2.engine = ex0.engine →
      run_raw_query conns2 q0 0 = run_raw_query conns0 q0 0) :=
  run_raw_query_verbatim conns0 q0 0 ex0 rfl

/-- C8 witness: querying the unregistered connection name `missing` on an
empty registry fails with the 403 resp. 401 client errors. -/
theorem missing_connection_rejected_witness :
    run_query pt0 [] { connection := "missing", query := "select 1" } 0 =
      .error ⟨403, "Not a valid live connection. Refresh connection, then retry."⟩ ∧
    run_raw_query [] { connection := "missing", query := "select 1" } 0 =
      .error ⟨401, "Not a valid connection"⟩ ∧
    400 ≤ 403 ∧ 403 < 500 ∧ 400 ≤ 401 ∧ 401 < 500 :=
  missing_connection_rejected pt0 [] { connection := "missing", query := "select 1" } 0 rfl

/-- C9 witness: requesting the unknown model name `mystery` yields an empty
environment and the same outcome as requesting no model at all. -/
theorem unknown_model_empty_env_witness :
    build_environment pctx0 pub0 reqModel = .ok ([] : Environment) ∧
    create_connection pctx0 cctx0 fac0 pub0 reqModel [] =
      create_connection pctx0 cctx0 fac0 pub0 { reqModel with model := none } [] :=
  unknown_model_empty_env pctx0 cctx0 fac0 pub0 reqModel [] "mystery" rfl rfl rfl

/-- C10 witness: the registry discipline instantiated at a concrete
successful DuckDB connection request over the empty registry. -/
theorem create_connection_registry_atomic_witness :
    ((create_connection pctx0 cctx0 fac0 [] reqDuck []).2.isSome →
      (create_connection pctx0 cctx0 fac0 [] reqDuck []).1 = []) ∧
    ((create_connection pctx0 cctx0 fac0 [] reqDuck []).2 = none →
      ∃ ex, (create_connection pctx0 cctx0 fac0 [] reqDuck []).1 =
          regSet [] reqDuck.name ex ∧
        regGet (regSet [] reqDuck.name ex) reqDuck.name = some ex ∧
        ∀ k, k ≠ reqDuck.name →
          regGet (regSet [] reqDuck.name ex) k = regGet [] k) :=
  create_connection_registry_atomic pctx0 cctx0 fac0 [] reqDuck []

end PreqlStudio
